import Mathlib

/-!
Verification of the battery-notifier program (src/main.rs): the debounce
state machine `battery_notifier`, the level computation `calc_battery_level`
(IEEE-754 binary32 arithmetic, modelled exactly on the reachable value range),
the `BatteryLevel` newtype with its construction contract, and the two
notification routines.

Times are modelled in whole seconds as `Nat`; `Instant::duration_since`
saturates at zero for an earlier instant, which `Nat` subtraction matches.
-/

/-- The two alert kinds the notifier can fire. -/
inductive AlertKind
  | critical
  | low
deriving DecidableEq

/-- Rust enum `NotificationState` (src/main.rs lines 129-134). -/
inductive NotificationState
  | NotifiedLow (t : Nat)
  | NotifiedCritical (t : Nat)
  | Charging
  | NeverNotified
deriving DecidableEq

/-- Rust struct `BatteryLevel(u8)` (line 87).  The field is a `u8`; every
value the program constructs is at most 100, far below wrap-around, so a
plain `Nat` field is exact. -/
structure BatteryLevel where
  val : Nat
deriving DecidableEq

/-- `CRITICAL_BATTERY_LEVEL: BatteryLevel = BatteryLevel(6)` (line 17). -/
def CRITICAL_BATTERY_LEVEL : BatteryLevel := ⟨6⟩

/-- `LOW_BATTERY_LEVEL: BatteryLevel = BatteryLevel(15)` (line 18). -/
def LOW_BATTERY_LEVEL : BatteryLevel := ⟨15⟩

/-- `crit_frequency = Duration::from_secs(60)` (line 143), in seconds. -/
def crit_frequency : Nat := 60

/-- `low_frequency = Duration::from_secs(5 * 60)` (line 144), in seconds. -/
def low_frequency : Nat := 5 * 60

/-- The guard `matches!(state, NotifiedCritical(t) if now.duration_since(t) < cooldown)`
used at lines 155-156 and 165-166. -/
def notifiedCriticalWithin (state : NotificationState) (now cooldown : Nat) : Bool :=
  match state with
  | .NotifiedCritical t => decide (now - t < cooldown)
  | _ => false

/-- The guard `matches!(state, NotifiedLow(t) if now.duration_since(t) < cooldown)`
used at lines 163-164. -/
def notifiedLowWithin (state : NotificationState) (now cooldown : Nat) : Bool :=
  match state with
  | .NotifiedLow t => decide (now - t < cooldown)
  | _ => false

/-- Result of one iteration of the loop body of `battery_notifier`:
which notify calls were made, whether a notify error propagated out via `?`,
and the value of `notification_state` when the iteration exits. -/
structure StepResult where
  fired : List AlertKind
  errored : Bool
  state : NotificationState
deriving DecidableEq

/-- One iteration of the loop body of `battery_notifier` (lines 151-171).
`notifyFails k` tells whether the `NotificationService` display call for
kind `k` returns an error; when it does, the `?` operator propagates the
error before the assignment to `notification_state`, so the state field of
the result is the unchanged prior state. -/
def battery_notifier_step (notifyFails : AlertKind → Bool)
    (state : NotificationState) (now : Nat) (level : BatteryLevel)
    (battery_charging : Bool) : StepResult :=
  if battery_charging then
    ⟨[], false, .Charging⟩
  else if !battery_charging && decide (level.val ≤ CRITICAL_BATTERY_LEVEL.val)
      && !(notifiedCriticalWithin state now crit_frequency) then
    if notifyFails .critical then ⟨[.critical], true, state⟩
    else ⟨[.critical], false, .NotifiedCritical now⟩
  else if !battery_charging && decide (level.val ≤ LOW_BATTERY_LEVEL.val)
      && !(notifiedLowWithin state now low_frequency)
      && !(notifiedCriticalWithin state now low_frequency) then
    if notifyFails .low then ⟨[.low], true, state⟩
    else ⟨[.low], false, .NotifiedLow now⟩
  else
    ⟨[], false, state⟩

/-- The step with a notifier whose display calls all succeed. -/
def battery_notifier_step_ok (state : NotificationState) (now : Nat)
    (level : BatteryLevel) (battery_charging : Bool) : StepResult :=
  battery_notifier_step (fun _ => false) state now level battery_charging

/-- One sample consumed by the loop: current time, battery level, charging flag. -/
structure Sample where
  now : Nat
  level : BatteryLevel
  charging : Bool

/-- The sampling loop of `battery_notifier` run over a finite prefix of
samples, threading `notification_state` and stopping when a notify error
propagates. -/
def battery_notifier_run (notifyFails : AlertKind → Bool) :
    NotificationState → List Sample → List StepResult
  | _, [] => []
  | st, s :: rest =>
    let r := battery_notifier_step notifyFails st s.now s.level s.charging
    if r.errored then [r]
    else r :: battery_notifier_run notifyFails r.state rest

/-- Scans a run of the loop from a given state and reports whether some
sample whose level is in the critical range (≤ 6) had a low alert fired
on it. -/
def lowAlertAtCriticalLevel (notifyFails : AlertKind → Bool)
    (st : NotificationState) : List Sample → Bool
  | [] => false
  | s :: rest =>
    let r := battery_notifier_step notifyFails st s.now s.level s.charging
    (decide (s.level.val ≤ CRITICAL_BATTERY_LEVEL.val) && r.fired.contains .low)
      || (!r.errored && lowAlertAtCriticalLevel notifyFails r.state rest)

/-- `BatteryLevel::new` (lines 90-95), over the `i32` argument it receives
from `calc_battery_level`.  The contract `#[requires(percent.try_into()
.is_ok_and(|v| v <= 100))]` demands that the value convert to `u8` and be
at most 100, i.e. `0 ≤ percent ≤ 100`; a violation is a panic (as is the
`expect` it would otherwise reach), modelled as `none`. -/
def BatteryLevel.new (percent : Int) : Option BatteryLevel :=
  if 0 ≤ percent ∧ percent ≤ 100 then some ⟨percent.toNat⟩ else none

/-- `BatteryLevel::level` (lines 97-101). -/
def BatteryLevel.level (b : BatteryLevel) : Nat := b.val

/-- libnotify urgency levels. -/
inductive Urgency
  | Low
  | Normal
  | Critical
deriving DecidableEq

/-- The attributes of a libnotify notification that the program sets. -/
structure NotificationConfig where
  urgency : Urgency
  timeout : Int
deriving DecidableEq

/-- A fresh `Notification::new(...)` carries libnotify's defaults:
urgency `Normal` and timeout `NOTIFY_EXPIRES_DEFAULT` (-1, server default). -/
def newNotificationConfig : NotificationConfig := ⟨.Normal, -1⟩

/-- The calls a notify routine performs on its `Notification`, in program
order.  `showCall` is `notification.show()`. -/
inductive NotifyOp
  | setUrgency (u : Urgency)
  | setTimeout (t : Int)
  | showCall
deriving DecidableEq

/-- Body of `notify_critical_battery` (lines 55-65): set urgency `Critical`,
set timeout `i32::MAX`, then show. -/
def notify_critical_battery_ops : List NotifyOp :=
  [.setUrgency .Critical, .setTimeout (2 ^ 31 - 1), .showCall]

/-- Body of `notify_low_battery` (lines 67-77): show first, then set urgency
`Critical` and timeout `i32::MAX`. -/
def notify_low_battery_ops : List NotifyOp :=
  [.showCall, .setUrgency .Critical, .setTimeout (2 ^ 31 - 1)]

/-- The configuration the notification carries at the moment `show()` is
called (what the display request transmits); `none` if `show()` is never
called. -/
def configAtShow : List NotifyOp → NotificationConfig → Option NotificationConfig
  | [], _ => none
  | NotifyOp.showCall :: _, c => some c
  | NotifyOp.setUrgency u :: rest, c => configAtShow rest { c with urgency := u }
  | NotifyOp.setTimeout t :: rest, c => configAtShow rest { c with timeout := t }

/-!
Exact model of the IEEE-754 binary32 (`f32`) arithmetic in
`calc_battery_level` (lines 110-113).  A finite binary32 value is a dyadic
rational `sig * 2^exp` with `2^23 ≤ |sig| < 2^24` (or zero); each f32
operation returns the exact real result rounded to the nearest such value,
ties to even.  All finite values reaching the operations of this program
lie well inside the normal range of binary32 (magnitudes between 2^-33 and
2^48, or zero), so overflow to infinity and subnormal underflow of finite
operation results cannot occur and are not modelled. -/

/-- IEEE-754 binary32 value: `fin sig exp` is the finite value
`sig * 2^exp` (zero is `fin 0 0`; every constructor below yields
`2^23 ≤ sig.natAbs < 2^24` otherwise), plus infinities and NaN. -/
inductive FVal
  | fin (sig : Int) (exp : Int)
  | inf
  | ninf
  | nan
deriving DecidableEq

/-- Lower bound of a normalized 24-bit significand. -/
def sigLo : Nat := 2 ^ 23

/-- Upper bound (exclusive) of a normalized 24-bit significand. -/
def sigHi : Nat := 2 ^ 24

/-- Scales the positive fraction `a / b` by powers of two into
`[2^23, 2^24)`, adjusting `e` so that `(a / b) * 2^e` is unchanged.
The fuel bounds the doublings; 200 far exceeds the distance any value of
this program needs. -/
def scaleLoop : Nat → Nat → Nat → Int → Nat × Nat × Int
  | 0, a, b, e => (a, b, e)
  | fuel + 1, a, b, e =>
    if a < sigLo * b then scaleLoop fuel (2 * a) b (e - 1)
    else if sigHi * b ≤ a then scaleLoop fuel a (2 * b) (e + 1)
    else (a, b, e)

/-- Rounds the positive fraction `a / b` (times `2^e`) to a 24-bit
significand, nearest with ties to even: returns `(m, e2)` with rounded
value `m * 2^e2`.  A carry to `2^24` moves to the next binade. -/
def roundSig (a b : Nat) (e : Int) : Nat × Int :=
  let s := scaleLoop 200 a b e
  let n := s.1 / s.2.1
  let r := s.1 - n * s.2.1
  let m :=
    if 2 * r < s.2.1 then n
    else if s.2.1 < 2 * r then n + 1
    else if n % 2 = 0 then n else n + 1
  if m = sigHi then (sigLo, s.2.2 + 1) else (m, s.2.2)

/-- The binary32 value nearest to `(a / b) * 2^e` (`b ≠ 0`), rounding to
nearest with ties to even: IEEE-754 correct rounding on the normal range. -/
def f32near (a : Int) (b : Nat) (e : Int) : FVal :=
  if a = 0 then .fin 0 0
  else
    let m := roundSig a.natAbs b e
    if a < 0 then .fin (-(m.1 : Int)) m.2 else .fin (m.1 : Int) m.2

/-- f32 division.  A nonzero finite value divided by zero is a signed
infinity and `0.0 / 0.0` is NaN; all operands of this program are
non-negative, so the sign of zero is immaterial. -/
def FVal.fdiv : FVal → FVal → FVal
  | .nan, _ => .nan
  | _, .nan => .nan
  | .inf, .inf | .inf, .ninf | .ninf, .inf | .ninf, .ninf => .nan
  | .inf, .fin m _ => if m < 0 then .ninf else .inf
  | .ninf, .fin m _ => if m < 0 then .inf else .ninf
  | .fin _ _, .inf | .fin _ _, .ninf => .fin 0 0
  | .fin m1 e1, .fin m2 e2 =>
    if m2 = 0 then (if m1 = 0 then .nan else if m1 < 0 then .ninf else .inf)
    else f32near (if m2 < 0 then -m1 else m1) m2.natAbs (e1 - e2)

/-- f32 multiplication. -/
def FVal.fmul : FVal → FVal → FVal
  | .nan, _ => .nan
  | _, .nan => .nan
  | .inf, .inf => .inf
  | .inf, .ninf => .ninf
  | .ninf, .inf => .ninf
  | .ninf, .ninf => .inf
  | .inf, .fin m _ => if m = 0 then .nan else if m < 0 then .ninf else .inf
  | .fin m _, .inf => if m = 0 then .nan else if m < 0 then .ninf else .inf
  | .ninf, .fin m _ => if m = 0 then .nan else if m < 0 then .inf else .ninf
  | .fin m _, .ninf => if m = 0 then .nan else if m < 0 then .inf else .ninf
  | .fin m1 e1, .fin m2 e2 => f32near (m1 * m2) 1 (e1 + e2)

/-- Rust `f32::round`: nearest integer, ties away from zero.  A finite
binary32 value with non-negative exponent is already an integer; otherwise
the rounded integer is below `2^24`, hence exactly representable, so the
final `f32near` is exact. -/
def FVal.fround : FVal → FVal
  | .fin m e =>
    if 0 ≤ e then .fin m e
    else
      let d := 2 ^ (-e).toNat
      let n := m.natAbs / d
      let k := if d ≤ 2 * (m.natAbs % d) then n + 1 else n
      f32near (if m < 0 then -(k : Int) else (k : Int)) 1 0
  | .inf => .inf
  | .ninf => .ninf
  | .nan => .nan

/-- Rust `as i32` on an f32: truncate toward zero, saturating at the i32
bounds; NaN casts to 0. -/
def FVal.castI32 : FVal → Int
  | .fin m e =>
    let t : Int :=
      if 0 ≤ e then m * ((2 ^ e.toNat : Nat) : Int)
      else if m < 0 then -((m.natAbs / 2 ^ (-e).toNat : Nat) : Int)
      else ((m.natAbs / 2 ^ (-e).toNat : Nat) : Int)
    max (-(2 ^ 31)) (min (2 ^ 31 - 1) t)
  | .inf => 2 ^ 31 - 1
  | .ninf => -(2 ^ 31)
  | .nan => 0

/-- `calc_battery_level` (lines 110-113):
`let level: i32 = (((current / total) * 100.0).round() as i32).min(100);
BatteryLevel::new(level)`.  The f32 literal `100.0` is exactly 100;
`none` is the panic of the `BatteryLevel::new` contract. -/
def calc_battery_level (current total : FVal) : Option BatteryLevel :=
  BatteryLevel.new (min (((current.fdiv total).fmul (.fin 100 0)).fround.castI32) 100)

/-- Rust `u32 as f32`: round to nearest binary32 (exact up to 2^24). -/
def u32_as_f32 (n : Nat) : FVal := f32near n 1 0

/-- The level the sampling stream computes from the two raw energy
readings: `battery_energy_now`/`battery_energy_full` are parsed as `u32`,
converted `as f32` (lines 29-43), and fed to `calc_battery_level`
(lines 115-127). -/
def battery_level_of_readings (energy_now energy_full : Nat) : Option BatteryLevel :=
  calc_battery_level (u32_as_f32 energy_now) (u32_as_f32 energy_full)

/-- The level computation as the spec words it (section 4.1):
`round((energy_now / energy_full) * 100)` with round half away from zero,
clamped to a maximum of 100, in exact arithmetic.  For non-negative
arguments, round half away of `x` is `⌊x + 1/2⌋`, and with `x = 100*a/b`
that is the integer quotient `(200*a + b) / (2*b)`. -/
def specLevel (energy_now energy_full : Nat) : Nat :=
  min ((200 * energy_now + energy_full) / (2 * energy_full)) 100

example : battery_level_of_readings 50 200 = some ⟨25⟩ := by decide
example : battery_level_of_readings 199 200 = some ⟨100⟩ := by decide
example : battery_level_of_readings 0 200 = some ⟨0⟩ := by decide
example : battery_level_of_readings 21 40 = some ⟨52⟩ := by decide
example : specLevel 21 40 = 53 := by decide
example : specLevel 50 200 = 25 := by decide
example : battery_level_of_readings 50 0 = some ⟨100⟩ := by decide
example : battery_level_of_readings 0 0 = some ⟨0⟩ := by decide

/-!
Helper lemmas shared by the theorems below.
-/

theorem notifiedCriticalWithin_crit_to_low (st : NotificationState) (now : Nat)
    (h : notifiedCriticalWithin st now crit_frequency = true) :
    notifiedCriticalWithin st now low_frequency = true := by
  cases st with
  | NotifiedCritical t =>
    simp_all only [notifiedCriticalWithin, decide_eq_true_eq, crit_frequency, low_frequency]
    omega
  | NotifiedLow t => simp_all [notifiedCriticalWithin]
  | Charging => simp_all [notifiedCriticalWithin]
  | NeverNotified => simp_all [notifiedCriticalWithin]

theorem notifiedCriticalWithin_eq_false (st : NotificationState) (now cd : Nat)
    (h : ∀ t, st = .NotifiedCritical t → ¬ now - t < cd) :
    notifiedCriticalWithin st now cd = false := by
  cases st with
  | NotifiedCritical t => simpa [notifiedCriticalWithin] using h t rfl
  | _ => rfl

theorem notifiedLowWithin_eq_false (st : NotificationState) (now cd : Nat)
    (h : ∀ t, st = .NotifiedLow t → ¬ now - t < cd) :
    notifiedLowWithin st now cd = false := by
  cases st with
  | NotifiedLow t => simpa [notifiedLowWithin] using h t rfl
  | _ => rfl

/-- C3: for every sample with charging=true, no alert of any severity is
fired (whatever the notifier would do) and the state becomes `Charging`,
regardless of the charge level and of the prior state. -/
theorem charging_suppresses_all_alerts :
    ∀ (notifyFails : AlertKind → Bool) (st : NotificationState) (now : Nat)
      (level : BatteryLevel),
      battery_notifier_step notifyFails st now level true =
        ⟨[], false, .Charging⟩ :=
  fun _ _ _ _ => rfl

/-- C1: for a sample with charging=false and level ≤ 6, unless the state is
`NotifiedCritical t` with `now - t < 60`, exactly one critical alert fires
and the state becomes `NotifiedCritical now`; in particular it fires over a
recent `NotifiedLow`, fires again 61 s after a critical, and stays silent
30 s after a critical. -/
theorem critical_alert_fires_unless_cooldown :
    (∀ (st : NotificationState) (now : Nat) (level : BatteryLevel),
      level.val ≤ CRITICAL_BATTERY_LEVEL.val →
      (∀ t, st = .NotifiedCritical t → ¬ now - t < crit_frequency) →
      battery_notifier_step_ok st now level false =
        ⟨[.critical], false, .NotifiedCritical now⟩)
    ∧ (∀ t now : Nat, now - t < low_frequency →
        battery_notifier_step_ok (.NotifiedLow t) now ⟨4⟩ false =
          ⟨[.critical], false, .NotifiedCritical now⟩)
    ∧ (∀ t0 : Nat,
        battery_notifier_step_ok (.NotifiedCritical t0) (t0 + 61) ⟨4⟩ false =
          ⟨[.critical], false, .NotifiedCritical (t0 + 61)⟩)
    ∧ (∀ t0 : Nat,
        (battery_notifier_step_ok (.NotifiedCritical t0) (t0 + 30) ⟨4⟩ false).fired
          = []) := by
  refine ⟨fun st now level h6 hg => ?_, fun t now _ => ?_, fun t0 => ?_, fun t0 => ?_⟩
  · have hng := notifiedCriticalWithin_eq_false st now crit_frequency hg
    simp [battery_notifier_step_ok, battery_notifier_step, hng, h6]
  · simp [battery_notifier_step_ok, battery_notifier_step, notifiedCriticalWithin,
      CRITICAL_BATTERY_LEVEL]
  · simp [battery_notifier_step_ok, battery_notifier_step, notifiedCriticalWithin,
      CRITICAL_BATTERY_LEVEL, crit_frequency]
  · simp [battery_notifier_step_ok, battery_notifier_step, notifiedCriticalWithin,
      notifiedLowWithin, CRITICAL_BATTERY_LEVEL, LOW_BATTERY_LEVEL, crit_frequency,
      low_frequency]

theorem critical_alert_fires_unless_cooldown_witness :
    battery_notifier_step_ok .NeverNotified 5 ⟨4⟩ false =
        ⟨[.critical], false, .NotifiedCritical 5⟩
    ∧ battery_notifier_step_ok (.NotifiedLow 8) 10 ⟨4⟩ false =
        ⟨[.critical], false, .NotifiedCritical 10⟩
    ∧ battery_notifier_step_ok (.NotifiedCritical 7) (7 + 61) ⟨4⟩ false =
        ⟨[.critical], false, .NotifiedCritical (7 + 61)⟩
    ∧ (battery_notifier_step_ok (.NotifiedCritical 7) (7 + 30) ⟨4⟩ false).fired = [] :=
  ⟨critical_alert_fires_unless_cooldown.1 .NeverNotified 5 ⟨4⟩ (by decide)
      (fun t h => by cases h),
   critical_alert_fires_unless_cooldown.2.1 8 10 (by decide),
   critical_alert_fires_unless_cooldown.2.2.1 7,
   critical_alert_fires_unless_cooldown.2.2.2 7⟩

/-- C2: for a sample with charging=false and 6 < level ≤ 15, a low alert
fires (with the state becoming `NotifiedLow now`) exactly when the state is
neither `NotifiedLow t` with `now - t < 300` nor `NotifiedCritical t` with
`now - t < 300`; in particular, after a critical at `t0`, level 12 at
`t0 + 120` fires nothing while the same sample at `t0 + 301` fires a low
alert. -/
theorem low_alert_fires_iff_no_recent_alert :
    (∀ (st : NotificationState) (now : Nat) (level : BatteryLevel),
      CRITICAL_BATTERY_LEVEL.val < level.val →
      level.val ≤ LOW_BATTERY_LEVEL.val →
      (battery_notifier_step_ok st now level false =
          ⟨[.low], false, .NotifiedLow now⟩
        ↔ (∀ t, st = .NotifiedLow t → ¬ now - t < low_frequency)
          ∧ (∀ t, st = .NotifiedCritical t → ¬ now - t < low_frequency)))
    ∧ (∀ t0 : Nat,
        (battery_notifier_step_ok (.NotifiedCritical t0) (t0 + 120) ⟨12⟩ false).fired
          = [])
    ∧ (∀ t0 : Nat,
        battery_notifier_step_ok (.NotifiedCritical t0) (t0 + 301) ⟨12⟩ false =
          ⟨[.low], false, .NotifiedLow (t0 + 301)⟩) := by
  refine ⟨fun st now level h6 h15 => ?_, fun t0 => ?_, fun t0 => ?_⟩
  · have h6f : decide (level.val ≤ CRITICAL_BATTERY_LEVEL.val) = false := by
      simpa using by omega
    constructor
    · intro hres
      constructor
      · intro t hst hlt
        subst hst
        simp [battery_notifier_step_ok, battery_notifier_step, h6f, h15,
          notifiedLowWithin, notifiedCriticalWithin, hlt] at hres
      · intro t hst hlt
        subst hst
        simp [battery_notifier_step_ok, battery_notifier_step, h6f, h15,
          notifiedLowWithin, notifiedCriticalWithin, hlt] at hres
    · rintro ⟨hl, hc⟩
      have hlf := notifiedLowWithin_eq_false st now low_frequency hl
      have hcf := notifiedCriticalWithin_eq_false st now low_frequency hc
      simp [battery_notifier_step_ok, battery_notifier_step, h6f, h15, hlf, hcf]
  · simp [battery_notifier_step_ok, battery_notifier_step, notifiedLowWithin,
      notifiedCriticalWithin, CRITICAL_BATTERY_LEVEL, LOW_BATTERY_LEVEL,
      crit_frequency, low_frequency]
  · simp [battery_notifier_step_ok, battery_notifier_step, notifiedLowWithin,
      notifiedCriticalWithin, CRITICAL_BATTERY_LEVEL, LOW_BATTERY_LEVEL,
      crit_frequency, low_frequency]

theorem low_alert_fires_iff_no_recent_alert_witness :
    (battery_notifier_step_ok .NeverNotified 9 ⟨12⟩ false =
        ⟨[.low], false, .NotifiedLow 9⟩
      ↔ (∀ t, NotificationState.NeverNotified = .NotifiedLow t → ¬ 9 - t < low_frequency)
        ∧ (∀ t, NotificationState.NeverNotified = .NotifiedCritical t → ¬ 9 - t < low_frequency))
    ∧ (battery_notifier_step_ok (.NotifiedCritical 3) (3 + 120) ⟨12⟩ false).fired = []
    ∧ battery_notifier_step_ok (.NotifiedCritical 3) (3 + 301) ⟨12⟩ false =
        ⟨[.low], false, .NotifiedLow (3 + 301)⟩ :=
  ⟨low_alert_fires_iff_no_recent_alert.1 .NeverNotified 9 ⟨12⟩ (by decide) (by decide),
   low_alert_fires_iff_no_recent_alert.2.1 3,
   low_alert_fires_iff_no_recent_alert.2.2 3⟩

/-- C4: when the display call for the alert a sample fires returns an
error, the error propagates out of the loop iteration (`errored = true`)
and `notification_state` keeps its prior value: the assignment after the
`?` never runs. -/
theorem notify_error_propagates_state_unchanged :
    ∀ (notifyFails : AlertKind → Bool) (st : NotificationState) (now : Nat)
      (level : BatteryLevel) (charging : Bool) (a : AlertKind),
      a ∈ (battery_notifier_step notifyFails st now level charging).fired →
      notifyFails a = true →
      (battery_notifier_step notifyFails st now level charging).errored = true
        ∧ (battery_notifier_step notifyFails st now level charging).state = st := by
  intro f st now level charging a hmem hfail
  simp only [battery_notifier_step] at hmem ⊢
  split_ifs at hmem ⊢ <;> simp_all

theorem notify_error_propagates_state_unchanged_witness :
    AlertKind.critical ∈
        (battery_notifier_step (fun _ => true) .NeverNotified 0 ⟨4⟩ false).fired
    ∧ (battery_notifier_step (fun _ => true) .NeverNotified 0 ⟨4⟩ false).errored = true
    ∧ (battery_notifier_step (fun _ => true) .NeverNotified 0 ⟨4⟩ false).state =
        .NeverNotified := by
  refine ⟨by decide, ?_⟩
  have h := notify_error_propagates_state_unchanged (fun _ => true) .NeverNotified 0 ⟨4⟩
    false .critical (by decide) rfl
  exact ⟨h.1, h.2⟩

/-- C6: when charging is false and no alert rule matches (either the level
is above both thresholds, or the matching rule's cooldown guard suppresses
it), no alert is fired, no error occurs, and the state is exactly the
prior state. -/
theorem no_rule_no_alert_state_unchanged :
    ∀ (notifyFails : AlertKind → Bool) (st : NotificationState) (now : Nat)
      (level : BatteryLevel),
      ¬ (level.val ≤ CRITICAL_BATTERY_LEVEL.val
          ∧ notifiedCriticalWithin st now crit_frequency = false) →
      ¬ (level.val ≤ LOW_BATTERY_LEVEL.val
          ∧ notifiedLowWithin st now low_frequency = false
          ∧ notifiedCriticalWithin st now low_frequency = false) →
      battery_notifier_step notifyFails st now level false = ⟨[], false, st⟩ := by
  intro f st now level hc hl
  have h2 : (!false && decide (level.val ≤ CRITICAL_BATTERY_LEVEL.val)
      && !(notifiedCriticalWithin st now crit_frequency)) = false := by
    by_cases h : notifiedCriticalWithin st now crit_frequency = true
    · simp [h]
    · have hf : notifiedCriticalWithin st now crit_frequency = false := by simpa using h
      have h6 : ¬ level.val ≤ CRITICAL_BATTERY_LEVEL.val := fun hx => hc ⟨hx, hf⟩
      simp [h6]
  have h3 : (!false && decide (level.val ≤ LOW_BATTERY_LEVEL.val)
      && !(notifiedLowWithin st now low_frequency)
      && !(notifiedCriticalWithin st now low_frequency)) = false := by
    by_cases h : notifiedLowWithin st now low_frequency = true
    · simp [h]
    · have hlf : notifiedLowWithin st now low_frequency = false := by simpa using h
      by_cases hcw : notifiedCriticalWithin st now low_frequency = true
      · simp [hcw]
      · have hcf : notifiedCriticalWithin st now low_frequency = false := by simpa using hcw
        have h15 : ¬ level.val ≤ LOW_BATTERY_LEVEL.val := fun hx => hl ⟨hx, hlf, hcf⟩
        simp [h15]
  simp only [battery_notifier_step, h2, h3]
  simp

theorem no_rule_no_alert_state_unchanged_witness :
    battery_notifier_step (fun _ => true) (.NotifiedLow 2) 4 ⟨50⟩ false =
      ⟨[], false, .NotifiedLow 2⟩ :=
  no_rule_no_alert_state_unchanged (fun _ => true) (.NotifiedLow 2) 4 ⟨50⟩
    (by decide) (by decide)

/-- C7: constructing a `BatteryLevel` from any integer in [0,100] and
reading it back yields the same integer; any value outside [0,100] violates
the construction contract (no silent clamping inside the entity). -/
theorem battery_level_roundtrip :
    (∀ n : Int, 0 ≤ n → n ≤ 100 →
      (BatteryLevel.new n).map (fun b => (b.level : Int)) = some n)
    ∧ (∀ n : Int, n < 0 ∨ 100 < n → BatteryLevel.new n = none) := by
  constructor
  · intro n h0 h100
    simp [BatteryLevel.new, BatteryLevel.level, h0, h100, Int.toNat_of_nonneg h0]
  · intro n hn
    have : ¬ (0 ≤ n ∧ n ≤ 100) := by omega
    simp [BatteryLevel.new, this]

theorem battery_level_roundtrip_witness :
    (BatteryLevel.new 42).map (fun b => (b.level : Int)) = some 42
    ∧ BatteryLevel.new 101 = none
    ∧ BatteryLevel.new (-1) = none :=
  ⟨battery_level_roundtrip.1 42 (by decide) (by decide),
   battery_level_roundtrip.2 101 (Or.inr (by decide)),
   battery_level_roundtrip.2 (-1) (Or.inl (by decide))⟩

/-- C8 (bug evaluation): the critical notification carries urgency
`Critical` and timeout `i32::MAX` at the moment `show()` is called, but
the low notification is shown while still carrying the defaults (urgency
`Normal`, timeout -1): `notify_low_battery` calls `show()` before
`set_urgency`/`set_timeout`, so those settings never reach the displayed
notification. -/
theorem low_notification_shown_with_default_config :
    configAtShow notify_critical_battery_ops newNotificationConfig =
        some ⟨.Critical, 2 ^ 31 - 1⟩
    ∧ configAtShow notify_low_battery_ops newNotificationConfig =
        some ⟨.Normal, -1⟩
    ∧ configAtShow notify_low_battery_ops newNotificationConfig ≠
        some ⟨.Critical, 2 ^ 31 - 1⟩ := by
  refine ⟨rfl, rfl, ?_⟩
  decide

/-- A step never fires a low alert on a sample in the critical range: if
the critical rule is suppressed there, the state is `NotifiedCritical t`
with `now - t < 60 < 300`, which also suppresses the low rule. -/
theorem step_no_low_alert_in_critical_range (f : AlertKind → Bool)
    (st : NotificationState) (now : Nat) (level : BatteryLevel) (charging : Bool)
    (h : level.val ≤ CRITICAL_BATTERY_LEVEL.val) :
    AlertKind.low ∉ (battery_notifier_step f st now level charging).fired := by
  simp only [battery_notifier_step]
  split_ifs with h1 h2 h3 h4 h5
  · simp
  · simp
  · simp
  · exfalso
    simp only [Bool.and_eq_true, Bool.not_eq_true'] at h4
    by_cases h60 : notifiedCriticalWithin st now crit_frequency = true
    · have h300 := notifiedCriticalWithin_crit_to_low st now h60
      rw [h4.2] at h300
      exact Bool.false_ne_true h300
    · have hf : notifiedCriticalWithin st now crit_frequency = false := by
        simpa using h60
      exact h2 (by simp [h4.1.1.1, hf, h])
  · exfalso
    simp only [Bool.and_eq_true, Bool.not_eq_true'] at h4
    by_cases h60 : notifiedCriticalWithin st now crit_frequency = true
    · have h300 := notifiedCriticalWithin_crit_to_low st now h60
      rw [h4.2] at h300
      exact Bool.false_ne_true h300
    · have hf : notifiedCriticalWithin st now crit_frequency = false := by
        simpa using h60
      exact h2 (by simp [h4.1.1.1, hf, h])
  · simp

theorem lowAlertAtCriticalLevel_always_false (f : AlertKind → Bool)
    (st : NotificationState) (samples : List Sample) :
    lowAlertAtCriticalLevel f st samples = false := by
  induction samples generalizing st with
  | nil => rfl
  | cons s rest ih =>
    by_cases h : s.level.val ≤ CRITICAL_BATTERY_LEVEL.val
    · simp [lowAlertAtCriticalLevel,
        step_no_low_alert_in_critical_range f st s.now s.level s.charging h, ih]
    · simp [lowAlertAtCriticalLevel, h, ih]

/-- C10: starting from `NeverNotified`, no run of the loop ever fires a
low alert on a sample whose level is in the critical range (≤ 6), whatever
the notifier does: such a sample fires either a critical alert or nothing. -/
theorem no_low_alert_in_critical_range :
    ∀ (notifyFails : AlertKind → Bool) (samples : List Sample),
      lowAlertAtCriticalLevel notifyFails .NeverNotified samples = false :=
  fun f samples => lowAlertAtCriticalLevel_always_false f .NeverNotified samples

/-- C5 counterexample: at readings energy_now = 21, energy_full = 40 the
program computes level 52, while `round((21/40)*100) = round(52.5) = 53`
under round half away from zero: the f32 value of 21/40 is slightly below
0.525, so the f32 product is 52.4999961853… and rounds down. -/
theorem level_deviates_from_ideal_rounding_cex :
    (battery_level_of_readings 21 40).map BatteryLevel.level = some 52
    ∧ specLevel 21 40 = 53
    ∧ (battery_level_of_readings 21 40).map BatteryLevel.level
        ≠ some (specLevel 21 40) :=
  ⟨by decide, by decide, by decide⟩

/-- C5 (amended): the computed level equals the ideal rounding on the
listed examples (50/200 gives 25, 199/200 gives 100, energy_now = 0 gives
0 for every total), and every level the computation produces is capped at
100 with no explicit lower clamp; exact agreement with
`round((energy_now/energy_full)*100)` does not hold for every reading
pair, the computation being f32. -/
theorem level_computation_examples_and_cap :
    battery_level_of_readings 50 200 = some ⟨25⟩
    ∧ (battery_level_of_readings 50 200).map BatteryLevel.level = some (specLevel 50 200)
    ∧ battery_level_of_readings 199 200 = some ⟨100⟩
    ∧ (battery_level_of_readings 199 200).map BatteryLevel.level = some (specLevel 199 200)
    ∧ (∀ total : FVal, calc_battery_level (.fin 0 0) total = some ⟨0⟩)
    ∧ (∀ energy_full : Nat, battery_level_of_readings 0 energy_full = some ⟨0⟩)
    ∧ (∀ current total : FVal, ∀ b : BatteryLevel,
        calc_battery_level current total = some b → b.val ≤ 100) := by
  have hzero : ∀ total : FVal, calc_battery_level (.fin 0 0) total = some ⟨0⟩ := by
    intro total
    cases total with
    | fin m2 e2 =>
      by_cases h : m2 = 0
      · simp [calc_battery_level, FVal.fdiv, h, FVal.fmul, FVal.fround, FVal.castI32,
          BatteryLevel.new]
      · simp [calc_battery_level, FVal.fdiv, h, f32near, FVal.fmul, FVal.fround,
          FVal.castI32, BatteryLevel.new]
    | inf =>
      simp [calc_battery_level, FVal.fdiv, f32near, FVal.fmul, FVal.fround,
        FVal.castI32, BatteryLevel.new]
    | ninf =>
      simp [calc_battery_level, FVal.fdiv, f32near, FVal.fmul, FVal.fround,
        FVal.castI32, BatteryLevel.new]
    | nan =>
      simp [calc_battery_level, FVal.fdiv, FVal.fmul, FVal.fround, FVal.castI32,
        BatteryLevel.new]
  refine ⟨by decide, by decide, by decide, by decide, hzero, fun f => ?_, ?_⟩
  · have : u32_as_f32 0 = .fin 0 0 := by simp [u32_as_f32, f32near]
    rw [battery_level_of_readings, this]
    exact hzero _
  · intro c t b hb
    simp only [calc_battery_level, BatteryLevel.new] at hb
    split_ifs at hb with hcond
    · injection hb with hb
      subst hb
      simp only [BatteryLevel.val]
      omega

theorem level_computation_examples_and_cap_witness :
    calc_battery_level (.fin 0 0) .inf = some ⟨0⟩
    ∧ battery_level_of_readings 0 7 = some ⟨0⟩
    ∧ (⟨25⟩ : BatteryLevel).val ≤ 100 :=
  ⟨level_computation_examples_and_cap.2.2.2.2.1 .inf,
   level_computation_examples_and_cap.2.2.2.2.2.1 7,
   level_computation_examples_and_cap.2.2.2.2.2.2 (u32_as_f32 50) (u32_as_f32 200)
     ⟨25⟩ (by decide)⟩

/-- C9 counterexample: at energy_now = 50, energy_full = 0, the level
computation completes without any fault and returns level 100: f32
division by zero is defined (infinity), not a fault. -/
theorem total_zero_computes_level_100_cex :
    battery_level_of_readings 50 0 = some ⟨100⟩
    ∧ battery_level_of_readings 50 0 ≠ none :=
  ⟨by decide, by decide⟩

/-- C9 (amended): with total energy zero there is no division fault: f32
division of a positive value by zero yields infinity, which after
rounding, the saturating `as i32` cast and `.min(100)` gives level 100;
`0.0 / 0.0` is NaN, which casts to 0 and gives level 0. -/
theorem total_zero_no_division_fault :
    (∀ m e e2 : Int, 0 < m →
      calc_battery_level (.fin m e) (.fin 0 e2) = some ⟨100⟩)
    ∧ (∀ e e2 : Int, calc_battery_level (.fin 0 e) (.fin 0 e2) = some ⟨0⟩)
    ∧ battery_level_of_readings 1 0 = some ⟨100⟩ := by
  refine ⟨fun m e e2 hm => ?_, fun e e2 => ?_, by decide⟩
  · have hne : m ≠ 0 := by omega
    have hnl : ¬ m < 0 := by omega
    simp [calc_battery_level, FVal.fdiv, FVal.fmul, FVal.fround, FVal.castI32,
      BatteryLevel.new, hne, hnl]
  · simp [calc_battery_level, FVal.fdiv, FVal.fmul, FVal.fround, FVal.castI32,
      BatteryLevel.new]

theorem total_zero_no_division_fault_witness :
    calc_battery_level (.fin 3 0) (.fin 0 0) = some ⟨100⟩
    ∧ calc_battery_level (.fin 0 5) (.fin 0 2) = some ⟨0⟩ :=
  ⟨total_zero_no_division_fault.1 3 0 0 (by decide),
   total_zero_no_division_fault.2.1 5 2⟩
